import Mathlib

/-!
# QMpdClient (boox-qtmpd, `src/qmpdclient.cpp`)

A shallow embedding of the session object `QMpdClient`.  The member variables
become the fields of a structure, every member function becomes a pure
function from the state before the call to the returned value and the state
after it.  The C library (libmpdclient) and the server behind it are outside
the program; they are represented by an environment `MpdEnv` that fixes, for
every history of calls made so far, what the next call returns.  The history
itself is kept in the ghost field `trace_`, so that statements about which
calls an operation makes, and in which order, can be written down.

The C type `int` is rendered as `Int`: the program compares and stores these
values and never computes with them.  The member functions `song` and
`getSongList`, which only read from the server, and the slots that forward
the signals of the monitor are left out.
-/

namespace QMpd

/-! ## Values delivered by the library -/

/-- The song record of the library (`struct mpd_song`), reduced to the
attributes the client reads. -/
structure MpdSong where
  id : Int
  pos : Int
  uri : String
  deriving DecidableEq, Repr

/-- The status record of the library (`struct mpd_status`), reduced to the
volume, the one attribute read by `qmpdclient.cpp`. -/
structure MpdStatus where
  volume : Int
  deriving DecidableEq, Repr

/-- Modelled from the spec: the class `QMpdSong` (its header and source are not
among the sources).  The spec calls it a simple value object populated from a
response, so it holds what the library handed to its constructor; a null
pointer gives an object without data. -/
structure QMpdSong where
  song : Option MpdSong
  deriving DecidableEq, Repr

/-- Modelled from the spec: `QMpdSong::uri()`, the uri of the record the object
was populated from, the empty string when it was populated from nothing. -/
def QMpdSong.uri (s : QMpdSong) : String :=
  match s.song with
  | some m => m.uri
  | none => ""

/-- Modelled from the spec: the class `QMpdStatus` (not among the sources), a
value object populated by `setStatus` from a response. -/
structure QMpdStatus where
  status : Option MpdStatus
  deriving DecidableEq, Repr

/-- `QMpdSongList` is a `QList<QMpdSong>`. -/
abbrev QMpdSongList := List QMpdSong

/-- `QList::insert(i, value)` for the indices the program passes (`i >= 0`):
prepends for `i = 0`, appends for `i >= size()`, otherwise puts the value in
front of the element at `i`. -/
def qlistInsert (i : Int) (x : QMpdSong) (l : QMpdSongList) : QMpdSongList :=
  if i ≤ 0 then x :: l
  else if (l.length : Int) ≤ i then l ++ [x]
  else l.take i.toNat ++ x :: l.drop i.toNat

/-! ## Calls on the connection and other effects -/

/-- The library calls that talk to the server, with their arguments. -/
inductive MpdCommand where
  | run_status
  | run_update (path : Option String)
  | send_list_queue_meta
  | recv_song
  | response_finish
  | run_add_id_to (uri : String) (pos : Int)
  | run_add_id (uri : String)
  | run_add (uri : String)
  | run_get_queue_song_id (id : Int)
  | run_shuffle
  | run_clear
  | run_play
  | run_play_id (id : Int)
  | run_play_pos (pos : Int)
  | run_pause (mode : Bool)
  | run_stop
  | run_next
  | run_previous
  | run_repeat (mode : Bool)
  | run_random (mode : Bool)
  | run_set_volume (volume : Int)
  deriving DecidableEq, Repr

/-- Everything the client does to the outside world, in the order it does it. -/
inductive Effect where
  | connection_new (host : Option String) (port : Int) (timeout : Int)
  | connection_free
  | connection_clear_error
  | command (c : MpdCommand)
  | monitor_new (host : String) (port : Int) (timeout : Int)
  | monitor_start
  | monitor_stop
  | monitor_wait
  | monitor_delete
  deriving DecidableEq, Repr

/-- The connection handle (`struct mpd_connection`), reduced to what the client
can observe of it: whether it carries an error.  A call that fails leaves its
error on the handle, and the error stays there until
`mpd_connection_clear_error` is called. -/
structure MpdConnection where
  error : Bool
  deriving DecidableEq, Repr

/-- Life cycle of the monitor thread object. -/
inductive MonitorState where
  | idle
  | running
  | stopping
  | stopped
  | deleted
  deriving DecidableEq, Repr

/-- Modelled from the spec: the class `QMpdMonitor` (not among the sources),
reduced to its constructor arguments and its life cycle
`idle → running → stopping → stopped`; `deleted` marks an object that was
destroyed while the pointer to it is still held. -/
structure QMpdMonitor where
  host : String
  port : Int
  timeout : Int
  state : MonitorState
  deriving DecidableEq, Repr

/-- Modelled from the spec: `QMpdMonitor::start()`, the thread starts running. -/
def QMpdMonitor.start (m : QMpdMonitor) : QMpdMonitor := { m with state := MonitorState.running }

/-- Modelled from the spec: `QMpdMonitor::stop()`, the request to leave the loop. -/
def QMpdMonitor.stop (m : QMpdMonitor) : QMpdMonitor := { m with state := MonitorState.stopping }

/-- Modelled from the spec: `QMpdMonitor::wait()`, which returns once the
thread has stopped. -/
def QMpdMonitor.wait (m : QMpdMonitor) : QMpdMonitor := { m with state := MonitorState.stopped }

/-- The effect of `delete monitor_` on the object pointed to. -/
def QMpdMonitor.delete (m : QMpdMonitor) : QMpdMonitor := { m with state := MonitorState.deleted }

/-- The world outside the program.  Each field gives the result of one kind of
library call as a function of the history of effects before the call, so any
behaviour of library and server (including failures at any point) is one
value of this type.  `recv_songs` is the finite list of songs the server
sends in answer to a queue listing.  The two string conversions of Qt and the
volume reported by a `QMpdStatus` that received no data are taken as
parameters too. -/
structure MpdEnv where
  connection_new : List Effect → Option String → Int → Int → Option MpdConnection
  replyBool : List Effect → MpdCommand → Bool
  replyInt : List Effect → MpdCommand → Int
  replySong : List Effect → MpdCommand → Option MpdSong
  replyStatus : List Effect → Option MpdStatus
  recv_songs : List Effect → List MpdSong
  toAscii : String → String
  toLocal8Bit : String → String
  unsetVolume : Int

/-- `QMpdStatus::volume()`. -/
def QMpdStatus.volume (env : MpdEnv) (st : QMpdStatus) : Int :=
  match st.status with
  | some m => m.volume
  | none => env.unsetVolume

/-! ## The session object -/

/-- The member variables of `QMpdClient`, and the history of effects. -/
structure QMpdClient where
  host_ : String
  port_ : Int
  timeout_ : Int
  connection_ : Option MpdConnection
  monitor_ : Option QMpdMonitor
  songList_ : QMpdSongList
  id_ : Int
  pos_ : Int
  trace_ : List Effect
  deriving DecidableEq, Repr

/-- The constructor `QMpdClient::QMpdClient`. -/
def QMpdClient.new : QMpdClient :=
  { host_ := "", port_ := 0, timeout_ := 0, connection_ := none, monitor_ := none,
    songList_ := [], id_ := -1, pos_ := -1, trace_ := [] }

/-! ## Library calls on the session's connection

Each helper performs one library call on `connection_`: it appends the call to
the history and, when the call fails, marks the handle as carrying an error.
On a session without a connection the helpers are never reached by the
program; they then return the failure value and change nothing. -/

/-- A library call returning `bool` (`mpd_run_shuffle`, `mpd_run_add`, ...). -/
def mpdBool (env : MpdEnv) (cmd : MpdCommand) (s : QMpdClient) : Bool × QMpdClient :=
  match s.connection_ with
  | none => (false, s)
  | some c =>
    let ok := env.replyBool s.trace_ cmd
    (ok, { s with connection_ := some (if ok then c else { c with error := true }),
                  trace_ := s.trace_ ++ [Effect.command cmd] })

/-- A library call returning an id, `-1` on failure (`mpd_run_add_id`,
`mpd_run_add_id_to`). -/
def mpdId (env : MpdEnv) (cmd : MpdCommand) (s : QMpdClient) : Int × QMpdClient :=
  match s.connection_ with
  | none => (-1, s)
  | some c =>
    let r := env.replyInt s.trace_ cmd
    (r, { s with connection_ := some (if r = -1 then { c with error := true } else c),
                 trace_ := s.trace_ ++ [Effect.command cmd] })

/-- The call `mpd_run_update`, which returns the id of the update job, `0` on
failure. -/
def mpdUpdate (env : MpdEnv) (path : Option String) (s : QMpdClient) : Int × QMpdClient :=
  match s.connection_ with
  | none => (0, s)
  | some c =>
    let r := env.replyInt s.trace_ (MpdCommand.run_update path)
    (r, { s with connection_ := some (if r = 0 then { c with error := true } else c),
                 trace_ := s.trace_ ++ [Effect.command (MpdCommand.run_update path)] })

/-- The call `mpd_run_get_queue_song_id`, which returns a song or null. -/
def mpdSong (env : MpdEnv) (cmd : MpdCommand) (s : QMpdClient) : Option MpdSong × QMpdClient :=
  match s.connection_ with
  | none => (none, s)
  | some c =>
    let r := env.replySong s.trace_ cmd
    (r, { s with connection_ := some (if r.isSome then c else { c with error := true }),
                 trace_ := s.trace_ ++ [Effect.command cmd] })

/-- The call `mpd_run_status`, which returns a status or null. -/
def mpdStatus (env : MpdEnv) (s : QMpdClient) : Option MpdStatus × QMpdClient :=
  match s.connection_ with
  | none => (none, s)
  | some c =>
    let r := env.replyStatus s.trace_
    (r, { s with connection_ := some (if r.isSome then c else { c with error := true }),
                 trace_ := s.trace_ ++ [Effect.command MpdCommand.run_status] })

/-- The call `mpd_connection_clear_error`. -/
def mpdClearError (s : QMpdClient) : QMpdClient :=
  match s.connection_ with
  | none => s
  | some c =>
    { s with connection_ := some { c with error := false },
             trace_ := s.trace_ ++ [Effect.connection_clear_error] }

/-- The receive loop of `syncPlaylist`: one `mpd_recv_song` per pending song,
each appended to `songList_`, and a last one that returns null.  A response
is a finite list of songs, so the loop ends. -/
def recvLoop (pending : List MpdSong) (s : QMpdClient) : QMpdClient :=
  match pending with
  | [] => { s with trace_ := s.trace_ ++ [Effect.command MpdCommand.recv_song] }
  | m :: rest =>
    recvLoop rest { s with songList_ := s.songList_ ++ [QMpdSong.mk (some m)],
                           trace_ := s.trace_ ++ [Effect.command MpdCommand.recv_song] }

/-! ## Member functions -/

/-- The member function `QMpdClient::syncPlaylist`. -/
def syncPlaylist (env : MpdEnv) (s : QMpdClient) : QMpdSongList × QMpdClient :=
  let s0 := { s with songList_ := [] }
  match s0.connection_ with
  | none => (s0.songList_, s0)
  | some _ =>
    let pending := env.recv_songs s0.trace_
    let r := mpdBool env MpdCommand.send_list_queue_meta s0
    if r.1 then
      let s2 := recvLoop pending r.2
      let s3 := (mpdBool env MpdCommand.response_finish s2).2
      (s3.songList_, s3)
    else (r.2.songList_, r.2)

/-- The member function `QMpdClient::playlist`. -/
def playlist (s : QMpdClient) : QMpdSongList := s.songList_

/-- The member function `QMpdClient::status`. -/
def status (env : MpdEnv) (s : QMpdClient) : QMpdStatus × QMpdClient :=
  match s.connection_ with
  | none => (QMpdStatus.mk none, s)
  | some _ =>
    let r := mpdStatus env s
    (QMpdStatus.mk r.1, r.2)

/-- The member function `QMpdClient::setVolume`. -/
def setVolume (env : MpdEnv) (volume : Int) (s : QMpdClient) : QMpdClient :=
  match s.connection_ with
  | none => s
  | some _ => (mpdBool env (MpdCommand.run_set_volume volume) s).2

/-- The member function `QMpdClient::connectToServer`.  The `connect` calls
that wire the signals of the new monitor to the slots of the session do not
act on the state kept here. -/
def connectToServer (env : MpdEnv) (host : String) (port timeout : Int) (s : QMpdClient) :
    Bool × QMpdClient :=
  match s.connection_ with
  | some _ => (true, s)
  | none =>
    let s1 := { s with host_ := host, port_ := port, timeout_ := timeout }
    let hostPtr : Option String :=
      if s1.host_.isEmpty then none else some (env.toLocal8Bit s1.host_)
    let s2 := { s1 with
      connection_ := env.connection_new s1.trace_ hostPtr s1.port_ s1.timeout_,
      trace_ := s1.trace_ ++ [Effect.connection_new hostPtr s1.port_ s1.timeout_] }
    let failed : Bool :=
      match s2.connection_ with
      | some c => c.error
      | none => false
    let s3 :=
      if failed then
        { s2 with connection_ := none, trace_ := s2.trace_ ++ [Effect.connection_free] }
      else
        let s4 := { s2 with
          monitor_ := some (QMpdMonitor.start
            { host := host, port := port, timeout := timeout, state := MonitorState.idle }),
          trace_ := s2.trace_ ++ [Effect.monitor_new host port timeout, Effect.monitor_start] }
        (syncPlaylist env s4).2
    (s3.connection_.isSome, s3)

/-- The member function `QMpdClient::disconnectFromServer`.  The calls on
`monitor_` dereference the pointer; the program only reaches them with a
monitor present, and the model leaves an absent monitor absent. -/
def disconnectFromServer (env : MpdEnv) (s : QMpdClient) : QMpdClient :=
  match s.connection_ with
  | none => s
  | some _ =>
    let s1 := { s with
      monitor_ := s.monitor_.map QMpdMonitor.stop,
      trace_ := s.trace_ ++ [Effect.monitor_stop] }
    let st := status env s1
    let s2 := setVolume env (st.1.volume env) st.2
    let s3 := { s2 with
      monitor_ := s2.monitor_.map QMpdMonitor.wait,
      trace_ := s2.trace_ ++ [Effect.monitor_wait] }
    let s4 := { s3 with
      monitor_ := s3.monitor_.map QMpdMonitor.delete,
      trace_ := s3.trace_ ++ [Effect.monitor_delete] }
    { s4 with connection_ := none, trace_ := s4.trace_ ++ [Effect.connection_free] }

/-- The member function `QMpdClient::updateDB`. -/
def updateDB (env : MpdEnv) (path : String) (s : QMpdClient) : Int × QMpdClient :=
  match s.connection_ with
  | none => (0, s)
  | some _ =>
    let pathPtr : Option String :=
      if path.isEmpty then none else some (env.toLocal8Bit path)
    mpdUpdate env pathPtr s

/-- The duplicate scan at the head of the append branch of `addToPlaylist`:
whether some cached entry has the given uri. -/
def uriInList (uri : String) (l : QMpdSongList) : Bool :=
  match l with
  | [] => false
  | x :: rest => if uri = x.uri then true else uriInList uri rest

/-- The member function `QMpdClient::addToPlaylist`. -/
def addToPlaylist (env : MpdEnv) (uri : String) (pos : Int) (s : QMpdClient) :
    Int × QMpdClient :=
  let s0 := { s with id_ := -1, pos_ := -1 }
  match s0.connection_ with
  | none => (s0.id_, s0)
  | some _ =>
    if 0 ≤ pos then
      let r := mpdId env (MpdCommand.run_add_id_to (env.toAscii uri) pos) s0
      let s1 : QMpdClient := { r.2 with id_ := r.1 }
      if s1.id_ ≠ -1 then
        let s2 := { s1 with pos_ := pos }
        let f := mpdSong env (MpdCommand.run_get_queue_song_id s2.id_) s2
        let s3 : QMpdClient :=
          { f.2 with songList_ := qlistInsert pos (QMpdSong.mk f.1) f.2.songList_ }
        (s3.id_, s3)
      else
        let s2 := mpdClearError s1
        (s2.id_, s2)
    else if uriInList uri s0.songList_ then
      (s0.id_, s0)
    else
      let r := mpdId env (MpdCommand.run_add_id (env.toAscii uri)) s0
      let s1 : QMpdClient := { r.2 with id_ := r.1 }
      if s1.id_ ≠ -1 then
        let f := mpdSong env (MpdCommand.run_get_queue_song_id s1.id_) s1
        let s2 : QMpdClient := { f.2 with songList_ := f.2.songList_ ++ [QMpdSong.mk f.1] }
        (s2.id_, s2)
      else
        let s2 := mpdClearError s1
        let a := mpdBool env (MpdCommand.run_add (env.toAscii uri)) s2
        if a.1 then
          let s3 := (syncPlaylist env a.2).2
          (s3.id_, s3)
        else
          let s3 := mpdClearError a.2
          (s3.id_, s3)

/-- The member function `QMpdClient::latestSongId`. -/
def latestSongId (s : QMpdClient) : Int := s.id_

/-- The member function `QMpdClient::latestSongPosition`. -/
def latestSongPosition (s : QMpdClient) : Int := s.pos_

/-- The member function `QMpdClient::shufflePlaylist`. -/
def shufflePlaylist (env : MpdEnv) (s : QMpdClient) : QMpdClient :=
  match s.connection_ with
  | none => s
  | some _ =>
    let r := mpdBool env MpdCommand.run_shuffle s
    if r.1 then (syncPlaylist env r.2).2 else r.2

/-- The member function `QMpdClient::clearPlaylist`. -/
def clearPlaylist (env : MpdEnv) (s : QMpdClient) : QMpdClient :=
  match s.connection_ with
  | none => s
  | some _ =>
    let r := mpdBool env MpdCommand.run_clear s
    if r.1 then (syncPlaylist env r.2).2 else r.2

/-- The member function `QMpdClient::play`. -/
def play (env : MpdEnv) (id : Int) (s : QMpdClient) : QMpdClient :=
  match s.connection_ with
  | none => s
  | some _ =>
    if id = -1 then (mpdBool env MpdCommand.run_play s).2
    else (mpdBool env (MpdCommand.run_play_id id) s).2

/-- The member function `QMpdClient::playPosition`. -/
def playPosition (env : MpdEnv) (position : Int) (s : QMpdClient) : QMpdClient :=
  match s.connection_ with
  | none => s
  | some _ => (mpdBool env (MpdCommand.run_play_pos position) s).2

/-- The member function `QMpdClient::pause`. -/
def pause (env : MpdEnv) (s : QMpdClient) : QMpdClient :=
  match s.connection_ with
  | none => s
  | some _ => (mpdBool env (MpdCommand.run_pause true) s).2

/-- The member function `QMpdClient::stop`. -/
def stop (env : MpdEnv) (s : QMpdClient) : QMpdClient :=
  match s.connection_ with
  | none => s
  | some _ => (mpdBool env MpdCommand.run_stop s).2

/-- The member function `QMpdClient::next`. -/
def next (env : MpdEnv) (s : QMpdClient) : QMpdClient :=
  match s.connection_ with
  | none => s
  | some _ => (mpdBool env MpdCommand.run_next s).2

/-- The member function `QMpdClient::previous`. -/
def previous (env : MpdEnv) (s : QMpdClient) : QMpdClient :=
  match s.connection_ with
  | none => s
  | some _ => (mpdBool env MpdCommand.run_previous s).2

/-- The member function `QMpdClient::setRepeat`. -/
def setRepeat (env : MpdEnv) (onFlag : Bool) (s : QMpdClient) : QMpdClient :=
  match s.connection_ with
  | none => s
  | some _ => (mpdBool env (MpdCommand.run_repeat onFlag) s).2

/-- The member function `QMpdClient::setRandom`. -/
def setRandom (env : MpdEnv) (onFlag : Bool) (s : QMpdClient) : QMpdClient :=
  match s.connection_ with
  | none => s
  | some _ => (mpdBool env (MpdCommand.run_random onFlag) s).2

/-- The enumeration `QMpdStatus::Mode`; `other` stands for an integer that is
none of the four enumerators (the `default:` label of `setMode`). -/
inductive Mode where
  | ModeNormal
  | ModeRepeat
  | ModeRandom
  | ModeRandomRepeat
  | other
  deriving DecidableEq, Repr

/-- The member function `QMpdClient::setMode`. -/
def setMode (env : MpdEnv) (mode : Mode) (s : QMpdClient) : QMpdClient :=
  match s.connection_ with
  | none => s
  | some _ =>
    match mode with
    | Mode.ModeNormal =>
      (mpdBool env (MpdCommand.run_random false) (mpdBool env (MpdCommand.run_repeat false) s).2).2
    | Mode.ModeRepeat =>
      (mpdBool env (MpdCommand.run_random false) (mpdBool env (MpdCommand.run_repeat true) s).2).2
    | Mode.ModeRandom =>
      (mpdBool env (MpdCommand.run_random true) (mpdBool env (MpdCommand.run_repeat false) s).2).2
    | Mode.ModeRandomRepeat =>
      (mpdBool env (MpdCommand.run_random true) (mpdBool env (MpdCommand.run_repeat true) s).2).2
    | Mode.other => s

/-! ## Driving the session -/

/-- A run of append calls: `addToPlaylist(uri, -1)` for every uri of the list,
in order, collecting the returned ids. -/
def appendAll (env : MpdEnv) (uris : List String) (s : QMpdClient) : List Int × QMpdClient :=
  match uris with
  | [] => ([], s)
  | u :: rest =>
    let r := addToPlaylist env u (-1) s
    let rs := appendAll env rest r.2
    (r.1 :: rs.1, rs.2)

/-- What it means that every call of a run of appends succeeds through
add-with-id: at the moment of the call for `u` the server answers the
add-with-id command with the non-negative id `i`, and the fetch by that id
returns an entry whose uri is `u`. -/
def AppendsSucceed (env : MpdEnv) (calls : List (String × Int)) (s : QMpdClient) : Prop :=
  match calls with
  | [] => True
  | (u, i) :: rest =>
    env.replyInt s.trace_ (MpdCommand.run_add_id (env.toAscii u)) = i ∧ 0 ≤ i ∧
    (env.replySong (s.trace_ ++ [Effect.command (MpdCommand.run_add_id (env.toAscii u))])
        (MpdCommand.run_get_queue_song_id i)).map MpdSong.uri = some u ∧
    AppendsSucceed env rest (addToPlaylist env u (-1) s).2

/-- Whether an effect is a plain add command. -/
def isPlainAdd (e : Effect) : Bool :=
  match e with
  | Effect.command (MpdCommand.run_add _) => true
  | _ => false

/-- The effects of one queue fetch that starts after the history `tr`: the
listing request and, when it was sent, one receive per song, the receive
that ends the list, and the end of the response. -/
def fetchEffects (env : MpdEnv) (tr : List Effect) : List Effect :=
  if env.replyBool tr MpdCommand.send_list_queue_meta then
    Effect.command MpdCommand.send_list_queue_meta ::
      (List.replicate ((env.recv_songs tr).length + 1) (Effect.command MpdCommand.recv_song)
        ++ [Effect.command MpdCommand.response_finish])
  else [Effect.command MpdCommand.send_list_queue_meta]

/-- The queue a fetch that starts after the history `tr` delivers: the songs
received, in the order of the server, nothing when the request cannot be
sent. -/
def fetchedQueue (env : MpdEnv) (tr : List Effect) : QMpdSongList :=
  if env.replyBool tr MpdCommand.send_list_queue_meta then
    (env.recv_songs tr).map (fun m => QMpdSong.mk (some m))
  else []

/-! ## A sample server

A small server together with the library in front of it, given as a function
of the history as `MpdEnv` asks.  It keeps a queue, hands out the ids
1, 2, 3, ... to added songs and refuses the commands selected by `fails`.  As
in the library, a handle that carries an error refuses every command until
the error is cleared. -/

/-- The state of the sample server: its queue, the next free id, and whether
the handle carries an error. -/
structure SimState where
  queue : List MpdSong
  nextId : Int
  poisoned : Bool
  deriving DecidableEq, Repr

/-- One step of the sample server. -/
def simStep (fails : MpdCommand → Bool) (q : SimState) (e : Effect) : SimState :=
  match e with
  | Effect.connection_new _ _ _ => { q with poisoned := false }
  | Effect.connection_clear_error => { q with poisoned := false }
  | Effect.command c =>
    if q.poisoned then q
    else if fails c then { q with poisoned := true }
    else
      match c with
      | MpdCommand.run_add_id u =>
        { q with queue := q.queue ++ [MpdSong.mk q.nextId q.queue.length u],
                 nextId := q.nextId + 1 }
      | MpdCommand.run_add u =>
        { q with queue := q.queue ++ [MpdSong.mk q.nextId q.queue.length u],
                 nextId := q.nextId + 1 }
      | MpdCommand.run_add_id_to u _ =>
        { q with queue := q.queue ++ [MpdSong.mk q.nextId q.queue.length u],
                 nextId := q.nextId + 1 }
      | MpdCommand.run_clear => { q with queue := [] }
      | _ => q
  | _ => q

/-- The state of the sample server after a history. -/
def simState (fails : MpdCommand → Bool) (tr : List Effect) : SimState :=
  tr.foldl (simStep fails) { queue := [], nextId := 1, poisoned := false }

/-- Whether the sample server carries out a command issued after a history. -/
def simAccepts (fails : MpdCommand → Bool) (tr : List Effect) (c : MpdCommand) : Bool :=
  !(simState fails tr).poisoned && !fails c

/-- The sample server as an environment; `opened` is what opening a connection
returns. -/
def simEnv (fails : MpdCommand → Bool) (opened : Option MpdConnection) : MpdEnv :=
  { connection_new := fun _ _ _ _ => opened
    replyBool := fun tr c => simAccepts fails tr c
    replyInt := fun tr c =>
      match c with
      | MpdCommand.run_update _ => if simAccepts fails tr c then 1 else 0
      | _ => if simAccepts fails tr c then (simState fails tr).nextId else -1
    replySong := fun tr c =>
      match c with
      | MpdCommand.run_get_queue_song_id i =>
        if simAccepts fails tr c then (simState fails tr).queue.find? (fun m => m.id = i)
        else none
      | _ => none
    replyStatus := fun tr =>
      if simAccepts fails tr MpdCommand.run_status then some (MpdStatus.mk 40) else none
    recv_songs := fun tr => (simState fails tr).queue
    toAscii := fun u => u
    toLocal8Bit := fun u => u
    unsetVolume := -1 }

/-- No command fails. -/
def failNone (_ : MpdCommand) : Bool := false

/-- Every add-with-id-at-position command fails. -/
def failAddIdTo (c : MpdCommand) : Bool :=
  match c with
  | MpdCommand.run_add_id_to _ _ => true
  | _ => false

/-- Every add-with-id command fails. -/
def failAddId (c : MpdCommand) : Bool :=
  match c with
  | MpdCommand.run_add_id _ => true
  | _ => false

/-- Every fetch of a queue entry by id fails. -/
def failFetch (c : MpdCommand) : Bool :=
  match c with
  | MpdCommand.run_get_queue_song_id _ => true
  | _ => false

/-- Every queue listing request fails. -/
def failList (c : MpdCommand) : Bool :=
  match c with
  | MpdCommand.send_list_queue_meta => true
  | _ => false

/-- Every plain add and every add-with-id command fails. -/
def failAdds (c : MpdCommand) : Bool :=
  match c with
  | MpdCommand.run_add_id _ => true
  | MpdCommand.run_add _ => true
  | _ => false

/-- Every shuffle and every clear command fails. -/
def failShuffleClear (c : MpdCommand) : Bool :=
  match c with
  | MpdCommand.run_shuffle => true
  | MpdCommand.run_clear => true
  | _ => false

/-- Every play command fails. -/
def failPlay (c : MpdCommand) : Bool :=
  match c with
  | MpdCommand.run_play => true
  | _ => false

/-- A session that has just been connected to a server with an empty queue:
handle without error, monitor running, empty cache. -/
def connectedSession : QMpdClient :=
  { host_ := "localhost", port_ := 6600, timeout_ := 0,
    connection_ := some (MpdConnection.mk false),
    monitor_ := some (QMpdMonitor.mk "localhost" 6600 0 MonitorState.running),
    songList_ := [], id_ := -1, pos_ := -1, trace_ := [] }

/-! ## Auxiliary facts -/

theorem recvLoop_eq (pending : List MpdSong) (s : QMpdClient) :
    recvLoop pending s =
      { s with
        songList_ := s.songList_ ++ pending.map (fun m => QMpdSong.mk (some m)),
        trace_ := s.trace_ ++
          List.replicate (pending.length + 1) (Effect.command MpdCommand.recv_song) } := by
  induction pending generalizing s with
  | nil => simp [recvLoop]
  | cons m rest ih =>
    rw [recvLoop, ih]
    simp [List.replicate_succ, List.append_assoc]

theorem uriInList_eq_true_iff (uri : String) (l : QMpdSongList) :
    uriInList uri l = true ↔ ∃ x ∈ l, x.uri = uri := by
  induction l with
  | nil => simp [uriInList]
  | cons x rest ih =>
    by_cases h : uri = x.uri
    · simp [uriInList, h]
    · have h2 : ¬ x.uri = uri := fun e => h e.symm
      simp [uriInList, h, h2, ih]

theorem uriInList_eq_false_iff (uri : String) (l : QMpdSongList) :
    uriInList uri l = false ↔ ∀ x ∈ l, x.uri ≠ uri := by
  rw [← Bool.not_eq_true, uriInList_eq_true_iff]
  simp

/-- The queue fetch on a connected session, spelled out. -/
theorem syncPlaylist_connected (env : MpdEnv) (s : QMpdClient) (c : MpdConnection)
    (hc : s.connection_ = some c) :
    syncPlaylist env s =
      (fetchedQueue env s.trace_,
        { s with
          songList_ := fetchedQueue env s.trace_,
          connection_ :=
            some (if env.replyBool s.trace_ MpdCommand.send_list_queue_meta then
                    (if env.replyBool (s.trace_ ++ fetchEffects env s.trace_).dropLast
                        MpdCommand.response_finish then c else { c with error := true })
                  else { c with error := true }),
          trace_ := s.trace_ ++ fetchEffects env s.trace_ }) := by
  by_cases hs : env.replyBool s.trace_ MpdCommand.send_list_queue_meta = true
  · simp [syncPlaylist, hc, mpdBool, hs, recvLoop_eq, fetchedQueue, fetchEffects,
      List.dropLast_append_of_ne_nil, List.dropLast_cons_of_ne_nil]
  · simp only [Bool.not_eq_true] at hs
    simp [syncPlaylist, hc, mpdBool, hs, fetchedQueue, fetchEffects]

/-- The queue fetch does not touch `id_`. -/
theorem syncPlaylist_id (env : MpdEnv) (s : QMpdClient) :
    (syncPlaylist env s).2.id_ = s.id_ := by
  cases hc : s.connection_ with
  | none => simp [syncPlaylist, hc]
  | some c => rw [syncPlaylist_connected env s c hc]

/-- The queue fetch on a connected session leaves the fetched queue in the
cache and returns it. -/
theorem syncPlaylist_songList (env : MpdEnv) (s : QMpdClient) (c : MpdConnection)
    (hc : s.connection_ = some c) :
    (syncPlaylist env s).2.songList_ = fetchedQueue env s.trace_ ∧
    (syncPlaylist env s).1 = fetchedQueue env s.trace_ := by
  rw [syncPlaylist_connected env s c hc]
  exact ⟨rfl, rfl⟩

/-- The append branch of `addToPlaylist` when add-with-id succeeds: the call
returns the id of the server and appends the fetched entry. -/
theorem addToPlaylist_add_id_ok (env : MpdEnv) (s : QMpdClient) (c : MpdConnection)
    (uri : String) (i : Int) (f : Option MpdSong)
    (hc : s.connection_ = some c)
    (hnew : ∀ x ∈ s.songList_, x.uri ≠ uri)
    (hid : env.replyInt s.trace_ (MpdCommand.run_add_id (env.toAscii uri)) = i)
    (hi : i ≠ -1)
    (hfetch : env.replySong (s.trace_ ++ [Effect.command (MpdCommand.run_add_id (env.toAscii uri))])
      (MpdCommand.run_get_queue_song_id i) = f) :
    addToPlaylist env uri (-1) s =
      (i, { s with id_ := i, pos_ := -1,
                   connection_ := some (if f.isSome then c else { c with error := true }),
                   songList_ := s.songList_ ++ [QMpdSong.mk f],
                   trace_ := s.trace_ ++ [Effect.command (MpdCommand.run_add_id (env.toAscii uri)),
                     Effect.command (MpdCommand.run_get_queue_song_id i)] }) := by
  have hscan : uriInList uri s.songList_ = false := (uriInList_eq_false_iff uri s.songList_).2 hnew
  subst hid
  subst hfetch
  simp [addToPlaylist, hc, hscan, mpdId, mpdSong, hi]

/-- A run of appends that all succeed through add-with-id, started on a
connected session whose cache has none of the uris: the uris are appended
to the cache in call order and the returned ids are those of the server. -/
theorem appendAll_succeed (env : MpdEnv) (calls : List (String × Int)) :
    ∀ (s : QMpdClient) (c : MpdConnection), s.connection_ = some c →
      (∀ x ∈ s.songList_, x.uri ∉ calls.map Prod.fst) →
      (calls.map Prod.fst).Nodup →
      AppendsSucceed env calls s →
      (appendAll env (calls.map Prod.fst) s).2.songList_.map QMpdSong.uri
          = s.songList_.map QMpdSong.uri ++ calls.map Prod.fst ∧
      (appendAll env (calls.map Prod.fst) s).1 = calls.map Prod.snd ∧
      ∀ i ∈ calls.map Prod.snd, 0 ≤ i := by
  induction calls with
  | nil =>
    intro s c _ _ _ _
    simp [appendAll]
  | cons p rest ih =>
    obtain ⟨u, i⟩ := p
    intro s c hc hnew hd hs
    obtain ⟨hid, hi0, hf, hrest⟩ := hs
    have hi : i ≠ -1 := by omega
    obtain ⟨m, hm, hmu⟩ := Option.map_eq_some'.1 hf
    have hnew1 : ∀ x ∈ s.songList_, x.uri ≠ u := by
      intro x hx e
      exact hnew x hx (by simp [e])
    have h1 := addToPlaylist_add_id_ok env s c u i (some m) hc hnew1 hid hi hm
    have hd2 : u ∉ rest.map Prod.fst ∧ (rest.map Prod.fst).Nodup := by
      simpa using hd
    rw [h1] at hrest
    have hnew2 : ∀ x ∈ s.songList_ ++ [QMpdSong.mk (some m)], x.uri ∉ rest.map Prod.fst := by
      intro x hx
      rcases List.mem_append.1 hx with hx | hx
      · intro hmem
        exact hnew x hx (by simp only [List.map_cons, List.mem_cons]; exact Or.inr hmem)
      · have : x = QMpdSong.mk (some m) := by simpa using hx
        subst this
        simpa [QMpdSong.uri, hmu] using hd2.1
    have k := ih _ c rfl hnew2 hd2.2 hrest
    simp only [List.map_cons, appendAll, h1]
    refine ⟨?_, ?_, ?_⟩
    · rw [k.1]
      simp [QMpdSong.uri, hmu]
    · rw [k.2.1]
    · intro j hj
      rcases List.mem_cons.1 hj with hj | hj
      · rw [hj]; exact hi0
      · exact k.2.2 j hj

/-! ## Duplicate suppression in `addToPlaylist` -/

/-- C1, refuted as stated.  On the connected session with an empty cache and
the sample server, `addToPlaylist("file:///a.mp3", -1)` returns the id 1 and
caches the entry; the second call with the same uri finds the entry and
returns `id_`, which the first statement of the function has reset, so it
returns -1 and not 1.  Second part: when the fetch of the new entry fails, the
cached entry does not carry the uri, and the second call does issue server
commands and leaves two more entries in the cache. -/
theorem addToPlaylist_duplicate_counterexample :
    (addToPlaylist (simEnv failNone none) "file:///a.mp3" (-1) connectedSession).1 = 1 ∧
    (addToPlaylist (simEnv failNone none) "file:///a.mp3" (-1)
      (addToPlaylist (simEnv failNone none) "file:///a.mp3" (-1) connectedSession).2).1 = -1 ∧
    (addToPlaylist (simEnv failFetch none) "file:///a.mp3" (-1) connectedSession).1 = 1 ∧
    (addToPlaylist (simEnv failFetch none) "file:///a.mp3" (-1) connectedSession).2.trace_.length
      = 2 ∧
    (addToPlaylist (simEnv failFetch none) "file:///a.mp3" (-1)
      (addToPlaylist (simEnv failFetch none) "file:///a.mp3" (-1)
        connectedSession).2).2.trace_.length = 10 ∧
    (addToPlaylist (simEnv failFetch none) "file:///a.mp3" (-1)
      (addToPlaylist (simEnv failFetch none) "file:///a.mp3" (-1)
        connectedSession).2).2.songList_.length = 2 := by
  decide

/-- C1, amended.  On a connected session whose cache has no entry with the
uri, if the server answers add-with-id with an id `i` other than -1 and the
fetch by that id returns an entry `m` with that uri, then the first
`addToPlaylist(uri, -1)` returns `i` and appends the entry, and a second call
with the same uri returns -1, leaves `latestSongId()` and
`latestSongPosition()` at -1, issues no command (the history is the one after
the first call), and leaves connection and cache as they were, so the cache
is one entry longer than before the two calls. -/
theorem addToPlaylist_duplicate_suppressed (env : MpdEnv) (s : QMpdClient) (c : MpdConnection)
    (uri : String) (i : Int) (m : MpdSong)
    (hc : s.connection_ = some c)
    (hnew : ∀ x ∈ s.songList_, x.uri ≠ uri)
    (hid : env.replyInt s.trace_ (MpdCommand.run_add_id (env.toAscii uri)) = i)
    (hi : i ≠ -1)
    (hfetch : env.replySong (s.trace_ ++ [Effect.command (MpdCommand.run_add_id (env.toAscii uri))])
      (MpdCommand.run_get_queue_song_id i) = some m)
    (hm : m.uri = uri) :
    (addToPlaylist env uri (-1) s).1 = i ∧
    (addToPlaylist env uri (-1) s).2.songList_ = s.songList_ ++ [QMpdSong.mk (some m)] ∧
    (addToPlaylist env uri (-1) (addToPlaylist env uri (-1) s).2).1 = -1 ∧
    latestSongId (addToPlaylist env uri (-1) (addToPlaylist env uri (-1) s).2).2 = -1 ∧
    latestSongPosition (addToPlaylist env uri (-1) (addToPlaylist env uri (-1) s).2).2 = -1 ∧
    (addToPlaylist env uri (-1) (addToPlaylist env uri (-1) s).2).2.trace_
      = (addToPlaylist env uri (-1) s).2.trace_ ∧
    (addToPlaylist env uri (-1) (addToPlaylist env uri (-1) s).2).2.connection_
      = (addToPlaylist env uri (-1) s).2.connection_ ∧
    (addToPlaylist env uri (-1) (addToPlaylist env uri (-1) s).2).2.songList_
      = (addToPlaylist env uri (-1) s).2.songList_ ∧
    (addToPlaylist env uri (-1) (addToPlaylist env uri (-1) s).2).2.songList_.length
      = s.songList_.length + 1 := by
  have h1 := addToPlaylist_add_id_ok env s c uri i (some m) hc hnew hid hi hfetch
  have hscan2 : uriInList uri (s.songList_ ++ [QMpdSong.mk (some m)]) = true := by
    rw [uriInList_eq_true_iff]
    exact ⟨QMpdSong.mk (some m), by simp, by simp [QMpdSong.uri, hm]⟩
  rw [h1]
  simp [addToPlaylist, hscan2, latestSongId, latestSongPosition]

/-- Witness for `addToPlaylist_duplicate_suppressed`: the connected session
with an empty cache, the sample server, the uri `file:///a.mp3`. -/
theorem addToPlaylist_duplicate_suppressed_witness :
    (addToPlaylist (simEnv failNone none) "file:///a.mp3" (-1)
      (addToPlaylist (simEnv failNone none) "file:///a.mp3" (-1) connectedSession).2).1 = -1 ∧
    (addToPlaylist (simEnv failNone none) "file:///a.mp3" (-1)
      (addToPlaylist (simEnv failNone none) "file:///a.mp3" (-1)
        connectedSession).2).2.songList_.length = 0 + 1 :=
  have h := addToPlaylist_duplicate_suppressed (simEnv failNone none) connectedSession
    (MpdConnection.mk false) "file:///a.mp3" 1 (MpdSong.mk 1 0 "file:///a.mp3")
    rfl (by decide) (by decide) (by decide) (by decide) rfl
  ⟨h.2.2.1, h.2.2.2.2.2.2.2.2⟩

/-! ## `syncPlaylist` -/

/-- C2, refuted as stated.  A session that was connected, cached one entry and
was then disconnected still holds that entry; `syncPlaylist` on it cannot
fetch and leaves the cache empty.  Likewise on a connected session with one
cached entry when the listing request cannot be sent. -/
theorem syncPlaylist_failure_counterexample :
    (disconnectFromServer (simEnv failNone none)
      (addToPlaylist (simEnv failNone none) "file:///a.mp3" (-1) connectedSession).2).connection_
        = none ∧
    (disconnectFromServer (simEnv failNone none)
      (addToPlaylist (simEnv failNone none) "file:///a.mp3" (-1) connectedSession).2).songList_
        = [QMpdSong.mk (some (MpdSong.mk 1 0 "file:///a.mp3"))] ∧
    (syncPlaylist (simEnv failNone none)
      (disconnectFromServer (simEnv failNone none)
        (addToPlaylist (simEnv failNone none) "file:///a.mp3" (-1)
          connectedSession).2)).2.songList_ = [] ∧
    (addToPlaylist (simEnv failList none) "file:///a.mp3" (-1) connectedSession).2.songList_
        = [QMpdSong.mk (some (MpdSong.mk 1 0 "file:///a.mp3"))] ∧
    (syncPlaylist (simEnv failList none)
      (addToPlaylist (simEnv failList none) "file:///a.mp3" (-1)
        connectedSession).2).2.songList_ = [] := by
  decide

/-- C2, amended.  If `syncPlaylist` cannot fetch the server queue (the session
is not connected, or the listing request fails to send), the cache after the
call and the returned list are empty; when the request is sent, the cache
after the call and the returned list are the received songs in the order of
the server. -/
theorem syncPlaylist_cache (env : MpdEnv) (s : QMpdClient) :
    ((s.connection_ = none ∨
        env.replyBool s.trace_ MpdCommand.send_list_queue_meta = false) →
      (syncPlaylist env s).2.songList_ = [] ∧ (syncPlaylist env s).1 = []) ∧
    (s.connection_.isSome = true →
        env.replyBool s.trace_ MpdCommand.send_list_queue_meta = true →
      (syncPlaylist env s).2.songList_
          = (env.recv_songs s.trace_).map (fun m => QMpdSong.mk (some m)) ∧
      (syncPlaylist env s).1
          = (env.recv_songs s.trace_).map (fun m => QMpdSong.mk (some m))) := by
  cases hc : s.connection_ with
  | none => simp [syncPlaylist, hc]
  | some c =>
    rw [syncPlaylist_connected env s c hc]
    constructor
    · intro h
      rcases h with h | h
      · cases h
      · simp [fetchedQueue, h]
    · intro _ h
      simp [fetchedQueue, h]

/-- Witness for `syncPlaylist_cache`: the disconnected session holding one
entry (first part) and a connected session whose server queue holds one song
(second part). -/
theorem syncPlaylist_cache_witness :
    (syncPlaylist (simEnv failNone none)
      (disconnectFromServer (simEnv failNone none)
        (addToPlaylist (simEnv failNone none) "file:///a.mp3" (-1)
          connectedSession).2)).2.songList_ = [] ∧
    (syncPlaylist (simEnv failNone none)
      (addToPlaylist (simEnv failNone none) "file:///a.mp3" (-1) connectedSession).2).1
        = [QMpdSong.mk (some (MpdSong.mk 1 0 "file:///a.mp3"))] :=
  ⟨((syncPlaylist_cache (simEnv failNone none)
      (disconnectFromServer (simEnv failNone none)
        (addToPlaylist (simEnv failNone none) "file:///a.mp3" (-1)
          connectedSession).2)).1 (Or.inl (by decide))).1,
   ((syncPlaylist_cache (simEnv failNone none)
      (addToPlaylist (simEnv failNone none) "file:///a.mp3" (-1) connectedSession).2).2
        (by decide) (by decide)).2⟩

/-! ## `connectToServer` -/

/-- C3, refuted as stated.  On the connected session `connectToServer` returns
true: the function returns `connection_ != 0`. -/
theorem connectToServer_connected_counterexample :
    connectedSession.connection_ = some (MpdConnection.mk false) ∧
    (connectToServer (simEnv failNone none) "otherhost" 6601 5 connectedSession).1 = true := by
  decide

/-- C3, amended.  On a session that already holds a connection handle,
`connectToServer` returns true and leaves the whole session as it was: host,
port, timeout, handle, monitor, cache, `id_`, `pos_`, and the history, so no
call of any kind is made. -/
theorem connectToServer_connected (env : MpdEnv) (host : String) (port timeout : Int)
    (s : QMpdClient) (c : MpdConnection) (hc : s.connection_ = some c) :
    connectToServer env host port timeout s = (true, s) := by
  simp [connectToServer, hc]

/-- Witness for `connectToServer_connected`. -/
theorem connectToServer_connected_witness :
    connectToServer (simEnv failNone none) "otherhost" 6601 5 connectedSession
      = (true, connectedSession) :=
  connectToServer_connected (simEnv failNone none) "otherhost" 6601 5 connectedSession
    (MpdConnection.mk false) rfl

/-- C4, the code at the failing input.  On the freshly constructed session,
when opening the connection returns no handle at all, the condition
`connection_ && mpd_connection_get_error(connection_) != MPD_ERROR_SUCCESS` is
false and the `else` branch runs: the monitor is created and started, the
queue fetch is attempted, and the call returns false with the monitor handle
set and the connection handle null. -/
theorem connectToServer_no_handle_starts_monitor :
    connectToServer (simEnv failNone none) "localhost" 6600 0 QMpdClient.new =
      (false,
        { host_ := "localhost", port_ := 6600, timeout_ := 0,
          connection_ := none,
          monitor_ := some (QMpdMonitor.mk "localhost" 6600 0 MonitorState.running),
          songList_ := [], id_ := -1, pos_ := -1,
          trace_ := [Effect.connection_new (some "localhost") 6600 0,
                     Effect.monitor_new "localhost" 6600 0,
                     Effect.monitor_start] }) := by
  decide

/-! ## `addToPlaylist` with an explicit position -/

/-- C5.  On a connected session, for every uri and every `pos >= 0`, if the
add-with-id-at-position command fails (returns -1), `addToPlaylist` returns
-1, `latestSongId()` and `latestSongPosition()` are -1, the error of the
handle is cleared, the only calls made are that command and the clearing of
the error (no plain add, no fetch), and the cache is the one before the
call. -/
theorem addToPlaylist_position_failure (env : MpdEnv) (s : QMpdClient) (c : MpdConnection)
    (uri : String) (pos : Int)
    (hc : s.connection_ = some c) (hpos : 0 ≤ pos)
    (hfail : env.replyInt s.trace_ (MpdCommand.run_add_id_to (env.toAscii uri) pos) = -1) :
    (addToPlaylist env uri pos s).1 = -1 ∧
    latestSongId (addToPlaylist env uri pos s).2 = -1 ∧
    latestSongPosition (addToPlaylist env uri pos s).2 = -1 ∧
    (addToPlaylist env uri pos s).2.connection_ = some (MpdConnection.mk false) ∧
    (addToPlaylist env uri pos s).2.trace_ =
      s.trace_ ++ [Effect.command (MpdCommand.run_add_id_to (env.toAscii uri) pos),
                   Effect.connection_clear_error] ∧
    (addToPlaylist env uri pos s).2.songList_ = s.songList_ := by
  simp [addToPlaylist, hc, hpos, mpdId, hfail, mpdClearError, latestSongId, latestSongPosition]

/-- Witness for `addToPlaylist_position_failure`, the example of the
specification: the cache holds the entry for `file:///a.mp3`, the call
`addToPlaylist("file:///b.mp3", 0)` meets a failing command, returns -1 and
the cache still holds that one entry. -/
theorem addToPlaylist_position_failure_witness :
    (addToPlaylist (simEnv failAddIdTo none) "file:///a.mp3" (-1) connectedSession).2.songList_
      = [QMpdSong.mk (some (MpdSong.mk 1 0 "file:///a.mp3"))] ∧
    (addToPlaylist (simEnv failAddIdTo none) "file:///b.mp3" 0
      (addToPlaylist (simEnv failAddIdTo none) "file:///a.mp3" (-1) connectedSession).2).1
        = -1 ∧
    (addToPlaylist (simEnv failAddIdTo none) "file:///b.mp3" 0
      (addToPlaylist (simEnv failAddIdTo none) "file:///a.mp3" (-1)
        connectedSession).2).2.songList_
      = (addToPlaylist (simEnv failAddIdTo none) "file:///a.mp3" (-1)
          connectedSession).2.songList_ :=
  have h := addToPlaylist_position_failure (simEnv failAddIdTo none)
    (addToPlaylist (simEnv failAddIdTo none) "file:///a.mp3" (-1) connectedSession).2
    (MpdConnection.mk false) "file:///b.mp3" 0 (by decide) (by decide) (by decide)
  ⟨by decide, h.1, h.2.2.2.2.2⟩

/-! ## The append fallback of `addToPlaylist` -/

/-- C6.  On a connected session whose cache has no entry with the uri, if
add-with-id fails, `addToPlaylist(uri, -1)` clears the error and issues the
plain add command, and the call returns -1.  If the plain add succeeds, the
session after the call is the one a full `syncPlaylist` produces from the
state right after the plain add, so the cache is the queue fetched from the
server at that moment, and the plain add was issued once.  If the plain add
fails, the error is cleared again, nothing further is called, and the cache
is the one before the call. -/
theorem addToPlaylist_append_fallback (env : MpdEnv) (s : QMpdClient) (c : MpdConnection)
    (uri : String)
    (hc : s.connection_ = some c)
    (hnew : ∀ x ∈ s.songList_, x.uri ≠ uri)
    (hfail : env.replyInt s.trace_ (MpdCommand.run_add_id (env.toAscii uri)) = -1) :
    (addToPlaylist env uri (-1) s).1 = -1 ∧
    (env.replyBool
        (s.trace_ ++ [Effect.command (MpdCommand.run_add_id (env.toAscii uri)),
                      Effect.connection_clear_error])
        (MpdCommand.run_add (env.toAscii uri)) = true →
      (addToPlaylist env uri (-1) s).2 =
        (syncPlaylist env
          { s with id_ := -1, pos_ := -1, connection_ := some (MpdConnection.mk false),
                   trace_ := s.trace_ ++
                     [Effect.command (MpdCommand.run_add_id (env.toAscii uri)),
                      Effect.connection_clear_error,
                      Effect.command (MpdCommand.run_add (env.toAscii uri))] }).2 ∧
      (addToPlaylist env uri (-1) s).2.songList_ =
        fetchedQueue env (s.trace_ ++
          [Effect.command (MpdCommand.run_add_id (env.toAscii uri)),
           Effect.connection_clear_error,
           Effect.command (MpdCommand.run_add (env.toAscii uri))]) ∧
      ((addToPlaylist env uri (-1) s).2.trace_.filter isPlainAdd).length
        = (s.trace_.filter isPlainAdd).length + 1) ∧
    (env.replyBool
        (s.trace_ ++ [Effect.command (MpdCommand.run_add_id (env.toAscii uri)),
                      Effect.connection_clear_error])
        (MpdCommand.run_add (env.toAscii uri)) = false →
      (addToPlaylist env uri (-1) s).2.connection_ = some (MpdConnection.mk false) ∧
      (addToPlaylist env uri (-1) s).2.songList_ = s.songList_ ∧
      (addToPlaylist env uri (-1) s).2.trace_ =
        s.trace_ ++ [Effect.command (MpdCommand.run_add_id (env.toAscii uri)),
                     Effect.connection_clear_error,
                     Effect.command (MpdCommand.run_add (env.toAscii uri)),
                     Effect.connection_clear_error]) := by
  have hscan : uriInList uri s.songList_ = false := (uriInList_eq_false_iff uri s.songList_).2 hnew
  by_cases ha : env.replyBool
        (s.trace_ ++ [Effect.command (MpdCommand.run_add_id (env.toAscii uri)),
                      Effect.connection_clear_error])
        (MpdCommand.run_add (env.toAscii uri)) = true
  · have hstate : (addToPlaylist env uri (-1) s).2 =
        (syncPlaylist env
          { s with id_ := -1, pos_ := -1, connection_ := some (MpdConnection.mk false),
                   trace_ := s.trace_ ++
                     [Effect.command (MpdCommand.run_add_id (env.toAscii uri)),
                      Effect.connection_clear_error,
                      Effect.command (MpdCommand.run_add (env.toAscii uri))] }).2 := by
      simp [addToPlaylist, hc, hscan, mpdId, hfail, mpdClearError, mpdBool, ha]
    have hret : (addToPlaylist env uri (-1) s).1 = -1 := by
      simp [addToPlaylist, hc, hscan, mpdId, hfail, mpdClearError, mpdBool, ha, syncPlaylist_id]
    refine ⟨hret, fun _ => ⟨hstate, ?_, ?_⟩, fun hb => ?_⟩
    · rw [hstate, syncPlaylist_connected env _ (MpdConnection.mk false) rfl]
    · rw [hstate, syncPlaylist_connected env _ (MpdConnection.mk false) rfl]
      simp only [fetchEffects]
      split <;> simp [List.filter_append, isPlainAdd, List.filter_replicate]
    · rw [ha] at hb
      cases hb
  · simp only [Bool.not_eq_true] at ha
    refine ⟨?_, fun hb => ?_, fun _ => ?_⟩
    · simp [addToPlaylist, hc, hscan, mpdId, hfail, mpdClearError, mpdBool, ha]
    · rw [ha] at hb
      cases hb
    · simp [addToPlaylist, hc, hscan, mpdId, hfail, mpdClearError, mpdBool, ha]

/-- Witness for `addToPlaylist_append_fallback`: on the connected session with
a server that refuses add-with-id, the plain add goes through and the cache
is fetched from the server; with a server that refuses both, the cache stays
as it was. -/
theorem addToPlaylist_append_fallback_witness :
    (addToPlaylist (simEnv failAddId none) "file:///a.mp3" (-1) connectedSession).1 = -1 ∧
    (addToPlaylist (simEnv failAddId none) "file:///a.mp3" (-1) connectedSession).2.songList_
      = fetchedQueue (simEnv failAddId none)
          [Effect.command (MpdCommand.run_add_id "file:///a.mp3"),
           Effect.connection_clear_error,
           Effect.command (MpdCommand.run_add "file:///a.mp3")] ∧
    (addToPlaylist (simEnv failAddId none) "file:///a.mp3" (-1) connectedSession).2.songList_
      = [QMpdSong.mk (some (MpdSong.mk 1 0 "file:///a.mp3"))] ∧
    (addToPlaylist (simEnv failAdds none) "file:///a.mp3" (-1) connectedSession).2.songList_
      = connectedSession.songList_ :=
  have h := addToPlaylist_append_fallback (simEnv failAddId none) connectedSession
    (MpdConnection.mk false) "file:///a.mp3" rfl (by decide) (by decide)
  have g := addToPlaylist_append_fallback (simEnv failAdds none) connectedSession
    (MpdConnection.mk false) "file:///a.mp3" rfl (by decide) (by decide)
  ⟨h.1, (h.2.1 (by decide)).2.1, by decide, (g.2.2 (by decide)).2.1⟩

/-! ## `shufflePlaylist` and `clearPlaylist` -/

/-- C7.  On a connected session, if the shuffle command succeeds, the cache
after `shufflePlaylist` is what a `syncPlaylist` started right after the
command returns, that is the queue fetched from the server at that moment;
if the command fails, or the session is not connected, the cache is the one
before the call.  The same holds for `clearPlaylist` and the clear command. -/
theorem shuffle_clear_cache (env : MpdEnv) (s : QMpdClient) :
    (s.connection_.isSome = true → env.replyBool s.trace_ MpdCommand.run_shuffle = true →
      (shufflePlaylist env s).songList_ =
        (syncPlaylist env
          { s with trace_ := s.trace_ ++ [Effect.command MpdCommand.run_shuffle] }).1 ∧
      (shufflePlaylist env s).songList_ =
        fetchedQueue env (s.trace_ ++ [Effect.command MpdCommand.run_shuffle])) ∧
    ((s.connection_ = none ∨ env.replyBool s.trace_ MpdCommand.run_shuffle = false) →
      (shufflePlaylist env s).songList_ = s.songList_) ∧
    (s.connection_.isSome = true → env.replyBool s.trace_ MpdCommand.run_clear = true →
      (clearPlaylist env s).songList_ =
        (syncPlaylist env
          { s with trace_ := s.trace_ ++ [Effect.command MpdCommand.run_clear] }).1 ∧
      (clearPlaylist env s).songList_ =
        fetchedQueue env (s.trace_ ++ [Effect.command MpdCommand.run_clear])) ∧
    ((s.connection_ = none ∨ env.replyBool s.trace_ MpdCommand.run_clear = false) →
      (clearPlaylist env s).songList_ = s.songList_) := by
  rcases Option.eq_none_or_eq_some s.connection_ with hc | ⟨c, hc⟩
  · simp [shufflePlaylist, clearPlaylist, hc]
  · refine ⟨fun _ h => ?_, fun h => ?_, fun _ h => ?_, fun h => ?_⟩
    · have e : (shufflePlaylist env s) =
          (syncPlaylist env
            { s with trace_ := s.trace_ ++ [Effect.command MpdCommand.run_shuffle] }).2 := by
        simp [shufflePlaylist, hc, mpdBool, h]
      rw [e]
      have k := syncPlaylist_songList env
        { s with trace_ := s.trace_ ++ [Effect.command MpdCommand.run_shuffle] } c hc
      exact ⟨k.1.trans k.2.symm, k.1⟩
    · rcases h with h | h
      · rw [hc] at h
        cases h
      · simp [shufflePlaylist, hc, mpdBool, h]
    · have e : (clearPlaylist env s) =
          (syncPlaylist env
            { s with trace_ := s.trace_ ++ [Effect.command MpdCommand.run_clear] }).2 := by
        simp [clearPlaylist, hc, mpdBool, h]
      rw [e]
      have k := syncPlaylist_songList env
        { s with trace_ := s.trace_ ++ [Effect.command MpdCommand.run_clear] } c hc
      exact ⟨k.1.trans k.2.symm, k.1⟩
    · rcases h with h | h
      · rw [hc] at h
        cases h
      · simp [clearPlaylist, hc, mpdBool, h]

/-- Witness for `shuffle_clear_cache`: the connected session holding one
entry, with the sample server (the commands succeed, the cache becomes the
queue of the server) and with a server that refuses both commands (the
cache stays). -/
theorem shuffle_clear_cache_witness :
    (shufflePlaylist (simEnv failNone none)
      (addToPlaylist (simEnv failNone none) "file:///a.mp3" (-1) connectedSession).2).songList_
      = fetchedQueue (simEnv failNone none)
          ((addToPlaylist (simEnv failNone none) "file:///a.mp3" (-1) connectedSession).2.trace_
            ++ [Effect.command MpdCommand.run_shuffle]) ∧
    (clearPlaylist (simEnv failNone none)
      (addToPlaylist (simEnv failNone none) "file:///a.mp3" (-1) connectedSession).2).songList_
      = fetchedQueue (simEnv failNone none)
          ((addToPlaylist (simEnv failNone none) "file:///a.mp3" (-1) connectedSession).2.trace_
            ++ [Effect.command MpdCommand.run_clear]) ∧
    (shufflePlaylist (simEnv failShuffleClear none)
      (addToPlaylist (simEnv failShuffleClear none) "file:///a.mp3" (-1)
        connectedSession).2).songList_
      = (addToPlaylist (simEnv failShuffleClear none) "file:///a.mp3" (-1)
          connectedSession).2.songList_ ∧
    (clearPlaylist (simEnv failShuffleClear none)
      (addToPlaylist (simEnv failShuffleClear none) "file:///a.mp3" (-1)
        connectedSession).2).songList_
      = (addToPlaylist (simEnv failShuffleClear none) "file:///a.mp3" (-1)
          connectedSession).2.songList_ :=
  have h := shuffle_clear_cache (simEnv failNone none)
    (addToPlaylist (simEnv failNone none) "file:///a.mp3" (-1) connectedSession).2
  have g := shuffle_clear_cache (simEnv failShuffleClear none)
    (addToPlaylist (simEnv failShuffleClear none) "file:///a.mp3" (-1) connectedSession).2
  ⟨(h.1 (by decide) (by decide)).2, (h.2.2.1 (by decide) (by decide)).2,
   g.2.1 (Or.inr (by decide)), g.2.2.2 (Or.inr (by decide))⟩

/-! ## Runs of appends -/

/-- C8.  For every run of `addToPlaylist(uri, -1)` calls with pairwise distinct
uris, started on a connected session with an empty cache, in which every call
succeeds through add-with-id (the server returns a non-negative id, the ids
pairwise distinct, and the fetch by id returns the entry for the uri): the
uris of the final cache, in order, are the uris in call order, and the calls
return the ids given by the server, which are non-negative and pairwise
distinct. -/
theorem appendAll_preserves_call_order (env : MpdEnv) (calls : List (String × Int))
    (s : QMpdClient) (c : MpdConnection)
    (hc : s.connection_ = some c) (hempty : s.songList_ = [])
    (hdistinct : (calls.map Prod.fst).Nodup)
    (hfresh : (calls.map Prod.snd).Nodup)
    (hsucc : AppendsSucceed env calls s) :
    (appendAll env (calls.map Prod.fst) s).2.songList_.map QMpdSong.uri = calls.map Prod.fst ∧
    (appendAll env (calls.map Prod.fst) s).1 = calls.map Prod.snd ∧
    (∀ i ∈ (appendAll env (calls.map Prod.fst) s).1, 0 ≤ i) ∧
    (appendAll env (calls.map Prod.fst) s).1.Nodup := by
  have k := appendAll_succeed env calls s c hc (by simp [hempty]) hdistinct hsucc
  refine ⟨?_, k.2.1, ?_, ?_⟩
  · rw [k.1, hempty]
    simp
  · rw [k.2.1]
    exact k.2.2
  · rw [k.2.1]
    exact hfresh

/-- Witness for `appendAll_preserves_call_order`: three appends on the
connected session with the sample server, which hands out the ids 1, 2, 3. -/
theorem appendAll_preserves_call_order_witness :
    (appendAll (simEnv failNone none) ["file:///a.mp3", "file:///b.mp3", "file:///c.mp3"]
      connectedSession).2.songList_.map QMpdSong.uri
        = ["file:///a.mp3", "file:///b.mp3", "file:///c.mp3"] ∧
    (appendAll (simEnv failNone none) ["file:///a.mp3", "file:///b.mp3", "file:///c.mp3"]
      connectedSession).1 = [1, 2, 3] :=
  have h := appendAll_preserves_call_order (simEnv failNone none)
    [("file:///a.mp3", 1), ("file:///b.mp3", 2), ("file:///c.mp3", 3)]
    connectedSession (MpdConnection.mk false) rfl rfl (by decide) (by decide)
    (by simp only [AppendsSucceed]; decide)
  ⟨h.1, h.2.1⟩

/-! ## `disconnectFromServer` -/

/-- C10, the code at the failing input.  On the connected session, whose handle
carries no error, `play(-1)` with a failing play command returns with the
error still on the handle: the only call made is the play command, no
clearing of the error follows, and the next command on the handle (here
`pause()`) is refused.  The same happens after a failing shuffle. -/
theorem play_failure_leaves_error :
    connectedSession.connection_ = some (MpdConnection.mk false) ∧
    (play (simEnv failPlay none) (-1) connectedSession).connection_
      = some (MpdConnection.mk true) ∧
    (play (simEnv failPlay none) (-1) connectedSession).trace_
      = [Effect.command MpdCommand.run_play] ∧
    (simEnv failPlay none).replyBool (play (simEnv failPlay none) (-1) connectedSession).trace_
      (MpdCommand.run_pause true) = false ∧
    (shufflePlaylist (simEnv failShuffleClear none) connectedSession).connection_
      = some (MpdConnection.mk true) ∧
    (shufflePlaylist (simEnv failShuffleClear none) connectedSession).trace_
      = [Effect.command MpdCommand.run_shuffle] := by
  decide

end QMpd
